import Mathlib

/-!
Verification development for the `imggen` image-generation tool.

The Python sources are shallowly embedded as Lean functions:
* `pricing.py` → pricing tables as association lists over `ℚ`, with Python's
  `x or default` truthiness (empty string is falsy) modelled explicitly;
* `generator.py` → filename computation, collision checking, metadata-record
  construction, and the batch orchestrator.  Filesystem state is a predicate
  `String → Bool` telling which filenames already exist in the output
  directory; the thread pool's nondeterministic completion order is an
  explicit list of slot indices; an adapter is a function from slot index to
  `Except String SlotResult` (`Except.error` models a raised exception).
-/

namespace Imggen

/-! ### pricing.py -/

/-- `GOOGLE_PRICING` dict from `pricing.py` (per image, USD). -/
def GOOGLE_PRICING : List (String × ℚ) :=
  [("1K", 134/1000), ("2K", 134/1000), ("4K", 24/100)]

/-- `OPENAI_PRICING` dict from `pricing.py` (per image, USD). -/
def OPENAI_PRICING : List (String × ℚ) :=
  [("low", 9/1000), ("medium", 34/1000), ("high", 133/1000)]

def DEFAULT_PROVIDER : String := "openai"

def DEFAULT_RESOLUTION : String := "1K"

def DEFAULT_QUALITY : String := "low"

/-- Python `x or d` for an optional string `x`: `None` and the empty string
are falsy and yield `d`. -/
def orDefault (x : Option String) (d : String) : String :=
  match x with
  | none => d
  | some s => if s = "" then d else s

/-- Python `dict.get(k, dflt)` on an association list. -/
def dictGet (d : List (String × ℚ)) (k : String) (dflt : ℚ) : ℚ :=
  match List.lookup k d with
  | some v => v
  | none => dflt

/-- `get_image_cost` from `pricing.py`.  The Python default argument
`GOOGLE_PRICING[DEFAULT_RESOLUTION]` (a raising dict index) is modelled by
`dictGet ... 0`; that the `0` branch is dead (both default keys are present)
is proved separately. -/
def get_image_cost (provider resolution quality : Option String) : ℚ :=
  let p := orDefault provider DEFAULT_PROVIDER
  if p = "google" then
    let r := orDefault resolution DEFAULT_RESOLUTION
    dictGet GOOGLE_PRICING r (dictGet GOOGLE_PRICING DEFAULT_RESOLUTION 0)
  else if p = "openai" then
    let q := orDefault quality DEFAULT_QUALITY
    dictGet OPENAI_PRICING q (dictGet OPENAI_PRICING DEFAULT_QUALITY 0)
  else
    0

/-- `calculate_image_cost` from `pricing.py`: argument-order glue over
`get_image_cost`. -/
def calculate_image_cost (provider quality resolution : Option String) : ℚ :=
  get_image_cost provider resolution quality

/-! ### generator.py: filenames and collision checking -/

/-- Python's `f"{i:03d}"`: decimal, zero-padded to at least three digits. -/
def pad3 (n : Nat) : String :=
  if n < 10 then "00" ++ toString n
  else if n < 100 then "0" ++ toString n
  else toString n

/-- The default target filename for slot `i`: `f"imggen_{i:03d}.png"`
(used both at `check_file_collisions` and at task submission). -/
def default_filename (i : Nat) : String :=
  "imggen_" ++ pad3 i ++ ".png"

/-- Python `range(1, variations + 1)`: the slot indices `1..variations`. -/
def target_slots (variations : Nat) : List Nat :=
  List.range' 1 variations

/-- `check_file_collisions(output_dir, variations)` from `generator.py`.
The output directory's contents are abstracted as the predicate
`dirContains` on filenames. -/
def check_file_collisions (dirContains : String → Bool) (variations : Nat) :
    Bool × List String :=
  let collisions :=
    ((target_slots variations).filter (fun i => dirContains (default_filename i))).map
      (fun i => default_filename i)
  (collisions.length > 0, collisions)

/-- `format_collision_error(collisions, output_dir)` from `generator.py`. -/
def format_collision_error (collisions : List String) (output_dir : String) : String :=
  String.intercalate "\n"
    (["Error: File collision detected", "",
      "The following files already exist in " ++ output_dir ++ ":"]
      ++ collisions.map (fun f => "  - " ++ f)
      ++ ["", "Please:", "  1. Delete or rename these files, OR",
          "  2. Use a different --output directory", "",
          "No API calls were made (no charges incurred)."])

/-- Modelled from the spec: `generate_filename(basename, index, total)` is
imported by `tests/test_generator.py` but absent from `src/imggen/generator.py`.
Spec §3: default naming is `imggen_{index:03d}.png`; custom-basename naming is
`{basename}.png` when total == 1, else `{basename}_{index}.png`. -/
def generate_filename (basename : Option String) (index total : Nat) : String :=
  match basename with
  | none => default_filename index
  | some b => if total = 1 then b ++ ".png" else b ++ "_" ++ toString index ++ ".png"

/-- Modelled from the spec: the `basename` parameter of
`check_file_collisions(output_dir, count, basename?)` (spec §4.1) is exercised
by `tests/test_generator.py` but missing from the `src/imggen/generator.py`
version, which handles only the default naming.  Computes the target filenames
by the naming rule and returns the existing subset in ascending slot order. -/
def check_file_collisions_b (dirContains : String → Bool) (variations : Nat)
    (basename : Option String) : Bool × List String :=
  let collisions :=
    ((target_slots variations).filter
        (fun i => dirContains (generate_filename basename i variations))).map
      (fun i => generate_filename basename i variations)
  (collisions.length > 0, collisions)

/-! ### generator.py: results and metadata -/

/-- A JSON-serializable metadata value (string, rational number, integer or
boolean), enough for every field `save_metadata_file` receives. -/
inductive JVal where
  | s (v : String)
  | q (v : ℚ)
  | i (v : Int)
  | b (v : Bool)
  deriving DecidableEq

/-- The result dict an adapter's `generate_image` returns (and
`generate_single_image` forwards).  A missing dict key is `none`;
`result.get("rate_limited")` on a dict without the key is falsy, so the
field defaults to `false`. -/
structure SlotResult where
  status : String
  error : Option String := none
  rate_limited : Bool := false
  revised_prompt : Option String := none
  created : Option String := none
  quality : Option String := none
  size : Option String := none
  cost_usd : Option ℚ := none
  model_version : Option String := none
  response_id : Option String := none
  finish_reason : Option String := none
  prompt_tokens : Option Int := none
  output_tokens : Option Int := none
  deriving DecidableEq

/-- `generate_single_image` from `generator.py`, abstracted over the
adapter call's behaviour: a returned result is forwarded unchanged, a raised
exception `e` becomes the dict `{"status": "failed", "error": str(e)}`
(which has no `rate_limited` key). -/
def generate_single_image (behavior : Except String SlotResult) : SlotResult :=
  match behavior with
  | Except.ok r => r
  | Except.error e => { status := "failed", error := some e }

/-- `filename.rsplit(".", 1)[0] + ".json"` from `save_metadata_file`. -/
def json_filename (filename : String) : String :=
  let parts := filename.splitOn "."
  if parts.length ≤ 1 then filename ++ ".json"
  else String.intercalate "." parts.dropLast ++ ".json"

/-- One `(key, value)` entry when the optional string is present, nothing
otherwise. -/
def optEntryS (k : String) (v : Option String) : List (String × JVal) :=
  match v with
  | none => []
  | some s => [(k, JVal.s s)]

/-- The metadata record built by `save_metadata_file` from `generator.py`,
in insertion order: the three required fields, then each optional field if
present (`revised_prompt` additionally only when it differs from the
original prompt), then every kwargs entry whose value is not `None`. -/
def save_metadata_file (original_prompt provider model : String)
    (revised_prompt created quality size : Option String)
    (cost_usd : Option ℚ)
    (kwargs : List (String × Option JVal)) : List (String × JVal) :=
  [("original_prompt", JVal.s original_prompt),
   ("provider", JVal.s provider),
   ("model", JVal.s model)]
  ++ (match revised_prompt with
      | some rp => if rp ≠ original_prompt then [("revised_prompt", JVal.s rp)] else []
      | none => [])
  ++ optEntryS "created" created
  ++ optEntryS "quality" quality
  ++ optEntryS "size" size
  ++ (match cost_usd with
      | some c => [("cost_usd", JVal.q c)]
      | none => [])
  ++ kwargs.filterMap (fun kv =>
      match kv.2 with
      | some v => some (kv.1, v)
      | none => none)

/-- The keys of a metadata record, in order. -/
def keysOf (m : List (String × JVal)) : List String :=
  m.map Prod.fst

/-- The field names `save_metadata_file` writes from its named parameters. -/
def reservedKeys : List String :=
  ["original_prompt", "provider", "model", "revised_prompt", "created",
   "quality", "size", "cost_usd"]

/-! ### generator.py: the batch orchestrator -/

/-- One per-slot console line emitted during finalization. -/
inductive ReportLine where
  | ok (slot : Nat) (filename : String)
  | err (slot : Nat) (filename : String) (error : String)
  deriving DecidableEq

/-- The slot index a report line is about. -/
def ReportLine.slot : ReportLine → Nat
  | ReportLine.ok i _ => i
  | ReportLine.err i _ _ => i

/-- The `as_completed` collection loop of `generate_from_prompt`: futures
complete in `order`; each completed slot's result is recorded; the loop
breaks right after recording the first result whose `rate_limited` is
truthy. -/
def collectResults (adapter : Nat → Except String SlotResult) :
    List Nat → List (Nat × SlotResult)
  | [] => []
  | i :: rest =>
    let r := generate_single_image (adapter i)
    if r.rate_limited then [(i, r)] else (i, r) :: collectResults adapter rest

/-- `results.get(i)`: the recorded result of slot `i`, if any. -/
def resultFor (collected : List (Nat × SlotResult)) (i : Nat) : Option SlotResult :=
  List.lookup i collected

/-- The metadata write performed for a successful slot: the sidecar filename
and the record `save_metadata_file` builds from the result's fields, with the
provider-specific fields passed as kwargs exactly as in `generate_from_prompt`. -/
def metadataFor (prompt providerName providerModel filename : String)
    (r : SlotResult) : String × List (String × JVal) :=
  (json_filename filename,
   save_metadata_file prompt providerName providerModel
     r.revised_prompt r.created r.quality r.size r.cost_usd
     [("model_version", r.model_version.map JVal.s),
      ("response_id", r.response_id.map JVal.s),
      ("finish_reason", r.finish_reason.map JVal.s),
      ("prompt_tokens", r.prompt_tokens.map JVal.i),
      ("output_tokens", r.output_tokens.map JVal.i)])

/-- What the finalization loop accumulates: console lines, metadata writes,
the success/failure counters, and the error list for the summary. -/
structure Finalization where
  lines : List ReportLine
  metadataWrites : List (String × List (String × JVal))
  successful : Nat
  failed : Nat
  errors : List String
  deriving DecidableEq

/-- The finalization loop of `generate_from_prompt` over a list of slot
indices: for each slot with a recorded result, emit its success/failure line
and (on success) the metadata write, in the order the slots are listed;
slots without a result are skipped. -/
def finalizeSlots (prompt providerName providerModel : String)
    (collected : List (Nat × SlotResult)) : List Nat → Finalization
  | [] => { lines := [], metadataWrites := [], successful := 0, failed := 0, errors := [] }
  | i :: rest =>
    let acc := finalizeSlots prompt providerName providerModel collected rest
    match resultFor collected i with
    | none => acc
    | some r =>
      let filename := default_filename i
      if r.status = "success" then
        { lines := ReportLine.ok i filename :: acc.lines,
          metadataWrites :=
            metadataFor prompt providerName providerModel filename r :: acc.metadataWrites,
          successful := acc.successful + 1,
          failed := acc.failed,
          errors := acc.errors }
      else
        let emsg := (r.error).getD "Unknown error"
        { lines := ReportLine.err i filename emsg :: acc.lines,
          metadataWrites := acc.metadataWrites,
          successful := acc.successful,
          failed := acc.failed + 1,
          errors := ("  - " ++ filename ++ ": " ++ emsg) :: acc.errors }

/-- Finalization over the slots `1..variations` in ascending order. -/
def finalize (variations : Nat) (prompt providerName providerModel : String)
    (collected : List (Nat × SlotResult)) : Finalization :=
  finalizeSlots prompt providerName providerModel collected (target_slots variations)

/-- Python `s.rstrip(os.sep)` with `os.sep = "/"`. -/
def rstrip_sep (s : String) : String :=
  String.mk ((s.data.reverse.dropWhile (fun c => c = '/')).reverse)

/-- The observable outcome of one `generate_from_prompt` run. -/
structure GenOutcome where
  raised : Option String
  adapterCalls : Nat
  imagesWritten : List String
  collected : List (Nat × SlotResult)
  lines : List ReportLine
  metadataWrites : List (String × List (String × JVal))
  successful : Nat
  failed : Nat
  rateLimited : Bool
  actualCost : ℚ

/-- `generate_from_prompt` from `generator.py` (dry_run = False, no model
override): collision check first — a collision raises `ValueError` with the
formatted message before any task is submitted; otherwise the per-image cost
is computed from the pricing table, all slots are dispatched, results are
collected in completion `order` until the rate-limit short-circuit, and
finalization replays the recorded results in ascending slot order.  The
displayed actual cost is `cost_per_image * successful`. -/
def generate_from_prompt (dirContains : String → Bool) (output_dir prompt : String)
    (variations : Nat) (provider_name providerModel : String)
    (quality resolution : Option String)
    (adapter : Nat → Except String SlotResult) (order : List Nat) : GenOutcome :=
  let od := rstrip_sep output_dir
  let col := check_file_collisions dirContains variations
  if col.1 then
    { raised := some (format_collision_error col.2 od),
      adapterCalls := 0, imagesWritten := [], collected := [], lines := [],
      metadataWrites := [], successful := 0, failed := 0,
      rateLimited := false, actualCost := 0 }
  else
    let cost_per_image := calculate_image_cost (some provider_name) quality resolution
    let collected := collectResults adapter order
    let fin := finalize variations prompt provider_name providerModel collected
    { raised := none,
      adapterCalls := collected.length,
      imagesWritten := collected.filterMap (fun p =>
        if p.2.status = "success" then some (default_filename p.1) else none),
      collected := collected,
      lines := fin.lines,
      metadataWrites := fin.metadataWrites,
      successful := fin.successful,
      failed := fin.failed,
      rateLimited := collected.any (fun p => p.2.rate_limited),
      actualCost := cost_per_image * fin.successful }

/-- The process exit code `cli.py` produces around `generate_from_prompt`:
any raised exception is caught and turned into `sys.exit(1)`. -/
def cli_exit_code (out : GenOutcome) : Nat :=
  match out.raised with
  | some _ => 1
  | none => 0

/-! ### Derived views of finalization -/

/-- The target filenames of a batch, in ascending slot order (the list the
collision checker tests and the dispatcher assigns). -/
def target_filenames (basename : Option String) (variations : Nat) : List String :=
  (target_slots variations).map (fun i => generate_filename basename i variations)

/-- The console line slot `i` contributes during finalization, if any. -/
def lineFor (c : List (Nat × SlotResult)) (i : Nat) : Option ReportLine :=
  match resultFor c i with
  | none => none
  | some r =>
    some (if r.status = "success" then ReportLine.ok i (default_filename i)
      else ReportLine.err i (default_filename i) ((r.error).getD "Unknown error"))

/-- The metadata write slot `i` contributes during finalization, if any. -/
def writeFor (prompt providerName providerModel : String)
    (c : List (Nat × SlotResult)) (i : Nat) :
    Option (String × List (String × JVal)) :=
  match resultFor c i with
  | none => none
  | some r =>
    if r.status = "success"
    then some (metadataFor prompt providerName providerModel (default_filename i) r)
    else none

/-- Slot `i` has a recorded successful result. -/
def successAt (c : List (Nat × SlotResult)) (i : Nat) : Bool :=
  match resultFor c i with
  | some r => r.status == "success"
  | none => false

/-- Slot `i` has a recorded failed result. -/
def failureAt (c : List (Nat × SlotResult)) (i : Nat) : Bool :=
  match resultFor c i with
  | some r => !(r.status == "success")
  | none => false

/-- Example adapter: slots 1..3 succeed, each reporting `cost_usd = 1`;
slot 4 fails. -/
def adapterEx : Nat → Except String SlotResult := fun i =>
  if i ≤ 3 then Except.ok { status := "success", cost_usd := some 1 }
  else Except.ok { status := "failed", error := some "boom" }

/-- Example adapter: every slot returns a rate-limited failure result. -/
def adapterRL : Nat → Except String SlotResult := fun _ =>
  Except.ok { status := "failed", error := some "Rate limit exceeded", rate_limited := true }

/-! ### Helper lemmas -/

theorem lookup_map_pair (f : Nat → SlotResult) (S : List Nat) (i : Nat) :
    List.lookup i (S.map (fun j => (j, f j)))
      = if i ∈ S then some (f i) else none := by
  induction S with
  | nil => simp
  | cons a t ih =>
    simp only [List.map_cons, List.lookup_cons]
    by_cases h : i = a
    · subst h; simp
    · have hb : (i == a) = false := by simp [h]
      simp [hb, ih, h]

theorem collectResults_stops (adapter : Nat → Except String SlotResult)
    (pre : List Nat) (j : Nat) (post : List Nat)
    (hpre : ∀ i ∈ pre, (generate_single_image (adapter i)).rate_limited = false)
    (hj : (generate_single_image (adapter j)).rate_limited = true) :
    collectResults adapter (pre ++ j :: post)
      = pre.map (fun i => (i, generate_single_image (adapter i)))
        ++ [(j, generate_single_image (adapter j))] := by
  induction pre with
  | nil => simp [collectResults, hj]
  | cons a t ih =>
    have ha := hpre a (by simp)
    have ht := ih (fun i hi => hpre i (by simp [hi]))
    simp [collectResults, ha, ht]

theorem collectResults_all (adapter : Nat → Except String SlotResult)
    (order : List Nat)
    (h : ∀ i ∈ order, (generate_single_image (adapter i)).rate_limited = false) :
    collectResults adapter order
      = order.map (fun i => (i, generate_single_image (adapter i))) := by
  induction order with
  | nil => rfl
  | cons a t ih =>
    have ha := h a (by simp)
    have ht := ih (fun i hi => h i (by simp [hi]))
    simp [collectResults, ha, ht]

theorem mem_collectResults (adapter : Nat → Except String SlotResult)
    (order : List Nat) (i : Nat) (r : SlotResult)
    (h : (i, r) ∈ collectResults adapter order) :
    i ∈ order ∧ r = generate_single_image (adapter i) := by
  induction order with
  | nil => simp [collectResults] at h
  | cons a t ih =>
    simp only [collectResults] at h
    by_cases hr : (generate_single_image (adapter a)).rate_limited
    · simp [hr] at h
      exact ⟨by simp [h.1], by rw [h.1, h.2]⟩
    · simp [hr] at h
      rcases h with h | h
      · exact ⟨by simp [h.1], by rw [h.1, h.2]⟩
      · rcases ih h with ⟨h1, h2⟩
        exact ⟨by simp [h1], h2⟩

theorem finalizeSlots_lines (prompt pn pm : String) (c : List (Nat × SlotResult))
    (slots : List Nat) :
    (finalizeSlots prompt pn pm c slots).lines = slots.filterMap (lineFor c) := by
  induction slots with
  | nil => rfl
  | cons a t ih =>
    simp only [finalizeSlots, List.filterMap_cons]
    cases h : resultFor c a with
    | none => simp [lineFor, h, ih]
    | some r =>
      by_cases hs : r.status = "success" <;>
        simp [lineFor, h, hs, ih]

theorem finalizeSlots_writes (prompt pn pm : String) (c : List (Nat × SlotResult))
    (slots : List Nat) :
    (finalizeSlots prompt pn pm c slots).metadataWrites
      = slots.filterMap (writeFor prompt pn pm c) := by
  induction slots with
  | nil => rfl
  | cons a t ih =>
    simp only [finalizeSlots, List.filterMap_cons]
    cases h : resultFor c a with
    | none => simp [writeFor, h, ih]
    | some r =>
      by_cases hs : r.status = "success" <;>
        simp [writeFor, h, hs, ih]

theorem finalizeSlots_successful (prompt pn pm : String) (c : List (Nat × SlotResult))
    (slots : List Nat) :
    (finalizeSlots prompt pn pm c slots).successful
      = (slots.filter (successAt c)).length := by
  induction slots with
  | nil => rfl
  | cons a t ih =>
    simp only [finalizeSlots, List.filter_cons]
    cases h : resultFor c a with
    | none => simp [successAt, h, ih]
    | some r =>
      by_cases hs : r.status = "success" <;>
        simp [successAt, h, hs, ih]

theorem finalizeSlots_failed (prompt pn pm : String) (c : List (Nat × SlotResult))
    (slots : List Nat) :
    (finalizeSlots prompt pn pm c slots).failed
      = (slots.filter (failureAt c)).length := by
  induction slots with
  | nil => rfl
  | cons a t ih =>
    simp only [finalizeSlots, List.filter_cons]
    cases h : resultFor c a with
    | none => simp [failureAt, h, ih]
    | some r =>
      by_cases hs : r.status = "success" <;>
        simp [failureAt, h, hs, ih]

theorem finalizeSlots_resultFor_congr (prompt pn pm : String)
    (c c' : List (Nat × SlotResult)) (slots : List Nat)
    (h : ∀ i, resultFor c' i = resultFor c i) :
    finalizeSlots prompt pn pm c' slots = finalizeSlots prompt pn pm c slots := by
  induction slots with
  | nil => rfl
  | cons a t ih => simp only [finalizeSlots, h, ih]

theorem counts_add (prompt pn pm : String) (c : List (Nat × SlotResult))
    (slots : List Nat) :
    (finalizeSlots prompt pn pm c slots).successful
        + (finalizeSlots prompt pn pm c slots).failed
      = (slots.filter (fun i => (resultFor c i).isSome)).length := by
  induction slots with
  | nil => rfl
  | cons a t ih =>
    simp only [finalizeSlots, List.filter_cons]
    cases h : resultFor c a with
    | none => simp [h, ih]
    | some r =>
      by_cases hs : r.status = "success" <;> simp [h, hs] <;> omega

theorem length_filter_mem (targets S : List Nat) (hT : targets.Nodup) (hS : S.Nodup)
    (hsub : ∀ i ∈ S, i ∈ targets) :
    (targets.filter (fun i => decide (i ∈ S))).length = S.length := by
  have hperm : List.Perm (targets.filter (fun i => decide (i ∈ S))) S := by
    apply List.perm_of_nodup_nodup_toFinset_eq (hT.filter _) hS
    ext x
    simp only [List.mem_toFinset, List.mem_filter, decide_eq_true_eq]
    exact ⟨fun hx => hx.2, fun hx => ⟨hsub x hx, hx⟩⟩
  exact hperm.length_eq

theorem dictGet_lookup_none (dict : List (String × ℚ)) (k : String) (dflt : ℚ)
    (h : List.lookup k dict = none) : dictGet dict k dflt = dflt := by
  simp [dictGet, h]

theorem filter_target_filenames (d : String → Bool) (b : Option String) (n : Nat) :
    ((target_slots n).filter (fun i => d (generate_filename b i n))).map
        (fun i => generate_filename b i n)
      = (target_filenames b n).filter d := by
  rw [target_filenames, List.filter_map]
  rfl

theorem keysOf_append (a b : List (String × JVal)) :
    keysOf (a ++ b) = keysOf a ++ keysOf b :=
  List.map_append _ a b

theorem keysOf_optEntryS (k : String) (v : Option String) :
    keysOf (optEntryS k v) = if v.isSome then [k] else [] := by
  cases v <;> rfl

theorem keysOf_kwargs (kwargs : List (String × Option JVal)) :
    keysOf (kwargs.filterMap (fun kv => match kv.2 with
      | some v => some (kv.1, v)
      | none => none))
      = kwargs.filterMap (fun kv => match kv.2 with
      | some _ => some kv.1
      | none => none) := by
  rw [keysOf, List.map_filterMap]
  congr 1
  funext kv
  rcases kv with ⟨k, v⟩
  cases v <;> rfl

theorem keysOf_save (op pv md : String) (rp cr ql sz : Option String) (cu : Option ℚ)
    (kwargs : List (String × Option JVal)) :
    keysOf (save_metadata_file op pv md rp cr ql sz cu kwargs)
      = ["original_prompt", "provider", "model"]
        ++ (match rp with
            | some s => if s ≠ op then ["revised_prompt"] else []
            | none => [])
        ++ (if cr.isSome then ["created"] else [])
        ++ (if ql.isSome then ["quality"] else [])
        ++ (if sz.isSome then ["size"] else [])
        ++ (if cu.isSome then ["cost_usd"] else [])
        ++ kwargs.filterMap (fun kv => match kv.2 with
            | some _ => some kv.1
            | none => none) := by
  unfold save_metadata_file
  repeat rw [keysOf_append]
  rw [keysOf_kwargs, keysOf_optEntryS, keysOf_optEntryS, keysOf_optEntryS]
  have h1 : keysOf (match rp with
      | some rp' => if rp' ≠ op then [("revised_prompt", JVal.s rp')] else []
      | none => ([] : List (String × JVal)))
      = (match rp with
      | some s => if s ≠ op then ["revised_prompt"] else []
      | none => ([] : List String)) := by
    cases rp with
    | none => rfl
    | some s => by_cases h : s ≠ op <;> simp [keysOf, h]
  have h2 : keysOf (match cu with
      | some c => [("cost_usd", JVal.q c)]
      | none => ([] : List (String × JVal)))
      = (if cu.isSome then ["cost_usd"] else []) := by
    cases cu <;> rfl
  rw [h1, h2]
  rfl

theorem kwargs_key_mem {kwargs : List (String × Option JVal)} {k : String}
    (h : k ∈ kwargs.filterMap (fun kv => match kv.2 with
      | some _ => some kv.1
      | none => none)) :
    k ∈ kwargs.map Prod.fst := by
  rcases List.mem_filterMap.mp h with ⟨⟨k', v⟩, hmem, heq⟩
  cases v with
  | none => simp at heq
  | some v' =>
    simp only [Option.some.injEq] at heq
    exact List.mem_map.mpr ⟨(k', some v'), hmem, by simp [heq]⟩

theorem snd_eq_of_nodup_keys {l : List (String × Option JVal)}
    (h : (l.map Prod.fst).Nodup) {a : String} {b c : Option JVal}
    (hb : (a, b) ∈ l) (hc : (a, c) ∈ l) : b = c := by
  induction l with
  | nil => cases hb
  | cons x t ih =>
    have hx : x.1 ∉ t.map Prod.fst := (List.nodup_cons.mp (by simpa using h)).1
    have ht : (t.map Prod.fst).Nodup := (List.nodup_cons.mp (by simpa using h)).2
    rcases List.mem_cons.mp hb with hb1 | hb1 <;> rcases List.mem_cons.mp hc with hc1 | hc1
    · rw [← hb1] at hc1
      exact congrArg Prod.snd hc1.symm
    · exfalso
      apply hx
      rw [← hb1]
      exact List.mem_map.mpr ⟨(a, c), hc1, by simp [← hb1]⟩
    · exfalso
      apply hx
      rw [← hc1]
      exact List.mem_map.mpr ⟨(a, b), hb1, by simp [← hc1]⟩
    · exact ih ht hb1 hc1

theorem kwargs_key_val {kwargs : List (String × Option JVal)} {k : String}
    (h : k ∈ kwargs.filterMap (fun kv => match kv.2 with
      | some _ => some kv.1
      | none => none)) :
    ∃ v, (k, some v) ∈ kwargs := by
  rcases List.mem_filterMap.mp h with ⟨⟨k', v⟩, hmem, heq⟩
  cases v with
  | none => simp at heq
  | some v' =>
    simp only [Option.some.injEq] at heq
    exact ⟨v', by rw [← heq]; exact hmem⟩

theorem mem_keysOf_save_iff (op pv md : String) (rp cr ql sz : Option String)
    (cu : Option ℚ) (kwargs : List (String × Option JVal)) (k : String) :
    k ∈ keysOf (save_metadata_file op pv md rp cr ql sz cu kwargs)
      ↔ (k = "original_prompt" ∨ k = "provider" ∨ k = "model"
        ∨ (k = "revised_prompt" ∧ ∃ s, rp = some s ∧ s ≠ op)
        ∨ (k = "created" ∧ cr.isSome = true)
        ∨ (k = "quality" ∧ ql.isSome = true)
        ∨ (k = "size" ∧ sz.isSome = true)
        ∨ (k = "cost_usd" ∧ cu.isSome = true)
        ∨ (∃ v, (k, some v) ∈ kwargs)) := by
  have hrp : k ∈ (match rp with
      | some s => if s ≠ op then ["revised_prompt"] else []
      | none => ([] : List String))
      ↔ (k = "revised_prompt" ∧ ∃ s, rp = some s ∧ s ≠ op) := by
    cases rp with
    | none => simp
    | some s =>
      by_cases h : s ≠ op
      · simp [h]
      · simp [h]
  have hoptS : ∀ (key : String) (o : Option String),
      (k ∈ (if o.isSome then [key] else ([] : List String)))
        ↔ (k = key ∧ o.isSome = true) := by
    intro key o
    cases o <;> simp
  have hoptQ : ∀ (key : String) (o : Option ℚ),
      (k ∈ (if o.isSome then [key] else ([] : List String)))
        ↔ (k = key ∧ o.isSome = true) := by
    intro key o
    cases o <;> simp
  have hkw : k ∈ kwargs.filterMap (fun kv => match kv.2 with
      | some _ => some kv.1
      | none => none) ↔ ∃ v, (k, some v) ∈ kwargs := by
    constructor
    · exact kwargs_key_val
    · rintro ⟨v, hv⟩
      exact List.mem_filterMap.mpr ⟨(k, some v), hv, rfl⟩
  rw [keysOf_save]
  simp only [List.mem_append, List.mem_cons, List.not_mem_nil, or_false]
  rw [hrp, hoptS "created" cr, hoptS "quality" ql, hoptS "size" sz,
    hoptQ "cost_usd" cu, hkw]
  simp only [or_assoc]

theorem filterMap_if_eq_filter (p : Nat → Bool) (l : List Nat) :
    l.filterMap (fun i => if p i then some i else none) = l.filter p := by
  induction l with
  | nil => rfl
  | cons a t ih =>
    by_cases h : p a <;> simp [List.filterMap_cons, List.filter_cons, h, ih]

theorem lineFor_map_slot (c : List (Nat × SlotResult)) (i : Nat) :
    (lineFor c i).map ReportLine.slot
      = if (resultFor c i).isSome then some i else none := by
  cases h : resultFor c i with
  | none => simp [lineFor, h]
  | some r =>
    by_cases hs : r.status = "success" <;> simp [lineFor, h, hs, ReportLine.slot]

/-! ### Claims -/

/-- C3: the collision checker (with the spec's basename parameter, which the
tests exercise but the `src` version lacks) reports `has_collision = true` iff
at least one of the batch's target filenames exists in the directory, and
returns exactly the existing subset of target filenames in ascending
slot-index order; over a directory containing none of the targets this forces
`(false, [])`. -/
theorem collision_check_exact (d : String → Bool) (n : Nat) (b : Option String) :
    ((check_file_collisions_b d n b).1 = true
        ↔ ∃ f ∈ target_filenames b n, d f = true)
    ∧ (check_file_collisions_b d n b).2 = (target_filenames b n).filter d := by
  have h2 : (check_file_collisions_b d n b).2 = (target_filenames b n).filter d := by
    rw [check_file_collisions_b]
    exact filter_target_filenames d b n
  refine ⟨?_, h2⟩
  rw [check_file_collisions_b]
  simp only [decide_eq_true_eq, List.length_pos, ne_eq]
  rw [show ((target_slots n).filter (fun i => d (generate_filename b i n))).map
        (fun i => generate_filename b i n) = (target_filenames b n).filter d from
      filter_target_filenames d b n]
  constructor
  · intro hne
    rcases List.exists_mem_of_ne_nil _ hne with ⟨f, hf⟩
    rcases List.mem_filter.mp hf with ⟨hmem, hd⟩
    exact ⟨f, hmem, hd⟩
  · rintro ⟨f, hmem, hd⟩ hnil
    have : f ∈ (target_filenames b n).filter d := List.mem_filter.mpr ⟨hmem, hd⟩
    rw [hnil] at this
    exact (List.not_mem_nil f) this

/-- C5: with a custom basename the deterministic naming rule — used both by
the collision checker and for the generated files — is `{basename}.png` when
the total count is 1, and `{basename}_{i}.png` for slot `i` when the count is
greater than 1. -/
theorem basename_naming_rule (b : String) (n : Nat) (d : String → Bool) :
    (∀ i : Nat, generate_filename (some b) i 1 = b ++ ".png")
    ∧ (n ≠ 1 → ∀ i : Nat, generate_filename (some b) i n = b ++ "_" ++ toString i ++ ".png")
    ∧ target_filenames (some b) 1 = [b ++ ".png"]
    ∧ (n ≠ 1 → target_filenames (some b) n
        = (target_slots n).map (fun i => b ++ "_" ++ toString i ++ ".png"))
    ∧ (check_file_collisions_b d n (some b)).2 = (target_filenames (some b) n).filter d := by
  refine ⟨fun i => by simp [generate_filename], fun hn i => by simp [generate_filename, hn],
    ?_, fun hn => ?_, ?_⟩
  · simp [target_filenames, target_slots, List.range', generate_filename]
  · simp [target_filenames, generate_filename, hn]
  · rw [check_file_collisions_b]
    exact filter_target_filenames d (some b) n

/-- C5 witness: the naming rule evaluated for basename "sunset" with counts
1 and 2. -/
theorem basename_naming_rule_w :
    generate_filename (some "sunset") 1 1 = "sunset.png"
    ∧ (2 ≠ 1 → ∀ i : Nat, generate_filename (some "sunset") i 2
        = "sunset" ++ "_" ++ toString i ++ ".png")
    ∧ target_filenames (some "sunset") 1 = ["sunset.png"] :=
  ⟨(basename_naming_rule "sunset" 2 (fun _ => false)).1 1,
   (basename_naming_rule "sunset" 2 (fun _ => false)).2.1,
   (basename_naming_rule "sunset" 1 (fun _ => false)).2.2.1⟩

/-- C6: with no basename, the filenames a batch of count 1..4 targets (checked
for collisions and assigned to slots) are exactly `imggen_001.png` through
`imggen_{count:03d}.png`, dense, without gaps or duplicates. -/
theorem default_target_filenames :
    (∀ (d : String → Bool) (n : Nat),
      (check_file_collisions d n).2 = (target_filenames none n).filter d)
    ∧ (∀ n : Nat, target_filenames none n = (target_slots n).map default_filename)
    ∧ target_filenames none 1 = ["imggen_001.png"]
    ∧ target_filenames none 2 = ["imggen_001.png", "imggen_002.png"]
    ∧ target_filenames none 3 = ["imggen_001.png", "imggen_002.png", "imggen_003.png"]
    ∧ target_filenames none 4
        = ["imggen_001.png", "imggen_002.png", "imggen_003.png", "imggen_004.png"]
    ∧ (target_filenames none 4).Nodup := by
  refine ⟨fun d n => ?_, fun n => rfl, by decide, by decide, by decide, by decide, by decide⟩
  rw [check_file_collisions]
  exact filter_target_filenames d none n

/-- C10 counterexample: the empty string is a provider name that is neither
"google" nor "openai", yet the pricing lookup does not return 0.0 for it — it
falls back to the default provider "openai" and returns that tier price. -/
theorem pricing_other_provider_cex :
    "" ≠ "google" ∧ "" ≠ "openai"
    ∧ get_image_cost (some "") none none ≠ 0
    ∧ calculate_image_cost (some "") none none ≠ 0
    ∧ get_image_cost (some "") none none = 9/1000 := by
  refine ⟨by decide, by decide, ?_, ?_, ?_⟩ <;>
    simp [calculate_image_cost, get_image_cost, orDefault, dictGet,
      OPENAI_PRICING, DEFAULT_PROVIDER, DEFAULT_QUALITY, List.lookup]

/-- C10 amended: the pricing lookup is total; a missing or unrecognized
resolution for "google" yields the default "1K" price, a missing or
unrecognized quality for "openai" yields the default "low" price, any
non-empty provider name other than "google"/"openai" yields 0, and an absent
or empty provider name falls back to the default provider "openai". -/
theorem pricing_lookup_total :
    (List.lookup DEFAULT_RESOLUTION GOOGLE_PRICING).isSome = true
    ∧ (List.lookup DEFAULT_QUALITY OPENAI_PRICING).isSome = true
    ∧ (∀ q : Option String, get_image_cost (some "google") none q = 134/1000)
    ∧ (∀ (v : String) (q : Option String), List.lookup v GOOGLE_PRICING = none →
        get_image_cost (some "google") (some v) q = 134/1000)
    ∧ (∀ r : Option String, get_image_cost (some "openai") r none = 9/1000)
    ∧ (∀ (v : String) (r : Option String), List.lookup v OPENAI_PRICING = none →
        get_image_cost (some "openai") r (some v) = 9/1000)
    ∧ (∀ p : String, p ≠ "" → p ≠ "google" → p ≠ "openai" →
        ∀ r q : Option String, get_image_cost (some p) r q = 0)
    ∧ (∀ r q : Option String,
        get_image_cost (some "") r q = get_image_cost (some DEFAULT_PROVIDER) r q)
    ∧ (∀ r q : Option String,
        get_image_cost none r q = get_image_cost (some DEFAULT_PROVIDER) r q)
    ∧ (∀ p q r : Option String, calculate_image_cost p q r = get_image_cost p r q) := by
  refine ⟨by decide, by decide, ?_, ?_, ?_, ?_, ?_, ?_, ?_, fun p q r => rfl⟩
  · intro q
    simp [get_image_cost, orDefault, dictGet, GOOGLE_PRICING, DEFAULT_PROVIDER,
      DEFAULT_RESOLUTION, List.lookup]
  · intro v q hv
    by_cases hv0 : v = ""
    · subst hv0
      simp [get_image_cost, orDefault, dictGet, GOOGLE_PRICING, DEFAULT_PROVIDER,
        DEFAULT_RESOLUTION, List.lookup]
    · simp only [get_image_cost, orDefault, DEFAULT_PROVIDER]
      rw [if_neg hv0]
      rw [dictGet_lookup_none GOOGLE_PRICING v _ hv]
      simp [dictGet, GOOGLE_PRICING, DEFAULT_RESOLUTION, List.lookup]
  · intro r
    simp [get_image_cost, orDefault, dictGet, OPENAI_PRICING, DEFAULT_PROVIDER,
      DEFAULT_QUALITY, List.lookup]
  · intro v r hv
    by_cases hv0 : v = ""
    · subst hv0
      simp [get_image_cost, orDefault, dictGet, OPENAI_PRICING, DEFAULT_PROVIDER,
        DEFAULT_QUALITY, List.lookup]
    · simp only [get_image_cost, orDefault, DEFAULT_PROVIDER]
      rw [if_neg hv0]
      rw [dictGet_lookup_none OPENAI_PRICING v _ hv]
      simp [dictGet, OPENAI_PRICING, DEFAULT_QUALITY, List.lookup]
  · intro p h0 hg ho r q
    simp [get_image_cost, orDefault, h0, hg, ho]
  · intro r q
    simp [get_image_cost, orDefault, DEFAULT_PROVIDER]
  · intro r q
    simp [get_image_cost, orDefault, DEFAULT_PROVIDER]

/-- C10 witness: the amended pricing facts evaluated at concrete unrecognized
tiers. -/
theorem pricing_lookup_total_w :
    List.lookup "9K" GOOGLE_PRICING = none
    ∧ get_image_cost (some "google") (some "9K") none = 134/1000
    ∧ List.lookup "ultra" OPENAI_PRICING = none
    ∧ get_image_cost (some "openai") none (some "ultra") = 9/1000
    ∧ get_image_cost (some "azure") none none = 0 :=
  ⟨by decide,
   pricing_lookup_total.2.2.2.1 "9K" none (by decide),
   by decide,
   pricing_lookup_total.2.2.2.2.2.1 "ultra" none (by decide),
   pricing_lookup_total.2.2.2.2.2.2.1 "azure" (by decide) (by decide) (by decide) none none⟩

/-- C1: whenever the collision check reports a collision, `generate_from_prompt`
raises the collision error before anything else happens: zero adapter calls,
zero image files, zero metadata sidecars, no per-slot output, and the CLI
exits non-zero. -/
theorem collision_aborts (d : String → Bool) (od p : String) (n : Nat)
    (pn pm : String) (q r : Option String)
    (adapter : Nat → Except String SlotResult) (order : List Nat)
    (hcol : (check_file_collisions d n).1 = true) :
    (generate_from_prompt d od p n pn pm q r adapter order).raised
        = some (format_collision_error (check_file_collisions d n).2 (rstrip_sep od))
    ∧ (generate_from_prompt d od p n pn pm q r adapter order).adapterCalls = 0
    ∧ (generate_from_prompt d od p n pn pm q r adapter order).imagesWritten = []
    ∧ (generate_from_prompt d od p n pn pm q r adapter order).metadataWrites = []
    ∧ (generate_from_prompt d od p n pn pm q r adapter order).lines = []
    ∧ (generate_from_prompt d od p n pn pm q r adapter order).collected = []
    ∧ cli_exit_code (generate_from_prompt d od p n pn pm q r adapter order) = 1 := by
  simp [generate_from_prompt, hcol, cli_exit_code]

/-- C1 witness: a directory already holding `imggen_001.png` with
`variations = 2` aborts with zero adapter calls and exit code 1. -/
theorem collision_aborts_w :
    (check_file_collisions (fun s => s = "imggen_001.png") 2).1 = true
    ∧ ((generate_from_prompt (fun s => s = "imggen_001.png") "./out" "p" 2
          "openai" "gpt-image-1.5" none none adapterEx [1, 2]).adapterCalls = 0
      ∧ (generate_from_prompt (fun s => s = "imggen_001.png") "./out" "p" 2
          "openai" "gpt-image-1.5" none none adapterEx [1, 2]).metadataWrites = []
      ∧ cli_exit_code (generate_from_prompt (fun s => s = "imggen_001.png") "./out" "p" 2
          "openai" "gpt-image-1.5" none none adapterEx [1, 2]) = 1) :=
  ⟨by decide,
   (collision_aborts (fun s => s = "imggen_001.png") "./out" "p" 2 "openai"
      "gpt-image-1.5" none none adapterEx [1, 2] (by decide)).2.1,
   (collision_aborts (fun s => s = "imggen_001.png") "./out" "p" 2 "openai"
      "gpt-image-1.5" none none adapterEx [1, 2] (by decide)).2.2.2.1,
   (collision_aborts (fun s => s = "imggen_001.png") "./out" "p" 2 "openai"
      "gpt-image-1.5" none none adapterEx [1, 2] (by decide)).2.2.2.2.2.2⟩

/-- C7: the displayed actual cost always equals the pre-computed per-image
pricing estimate times the number of successful slots; in particular with
3 successes and 1 failure it is `cost_per_image * 3`, and it is not the sum
of the adapter-reported per-response `cost_usd` values. -/
theorem actual_cost_formula :
    (∀ (d : String → Bool) (od p : String) (n : Nat) (pn pm : String)
        (q r : Option String) (adapter : Nat → Except String SlotResult)
        (order : List Nat),
      (generate_from_prompt d od p n pn pm q r adapter order).actualCost
        = calculate_image_cost (some pn) q r
          * (generate_from_prompt d od p n pn pm q r adapter order).successful)
    ∧ ((generate_from_prompt (fun _ => false) "." "p" 4 "openai" "gpt-image-1.5"
          (some "low") none adapterEx [1, 2, 3, 4]).successful = 3
      ∧ (generate_from_prompt (fun _ => false) "." "p" 4 "openai" "gpt-image-1.5"
          (some "low") none adapterEx [1, 2, 3, 4]).failed = 1
      ∧ (generate_from_prompt (fun _ => false) "." "p" 4 "openai" "gpt-image-1.5"
          (some "low") none adapterEx [1, 2, 3, 4]).actualCost
          = calculate_image_cost (some "openai") (some "low") none * 3
      ∧ (generate_from_prompt (fun _ => false) "." "p" 4 "openai" "gpt-image-1.5"
          (some "low") none adapterEx [1, 2, 3, 4]).actualCost
          ≠ ((generate_from_prompt (fun _ => false) "." "p" 4 "openai" "gpt-image-1.5"
              (some "low") none adapterEx [1, 2, 3, 4]).collected.filterMap
                (fun pr => pr.2.cost_usd)).sum) := by
  have hgen : ∀ (d : String → Bool) (od p : String) (n : Nat) (pn pm : String)
      (q r : Option String) (adapter : Nat → Except String SlotResult)
      (order : List Nat),
      (generate_from_prompt d od p n pn pm q r adapter order).actualCost
        = calculate_image_cost (some pn) q r
          * (generate_from_prompt d od p n pn pm q r adapter order).successful := by
    intro d od p n pn pm q r adapter order
    by_cases hc : (check_file_collisions d n).1 <;> simp [generate_from_prompt, hc]
  have hsucc : (generate_from_prompt (fun _ => false) "." "p" 4 "openai" "gpt-image-1.5"
      (some "low") none adapterEx [1, 2, 3, 4]).successful = 3 := by decide
  have hfail : (generate_from_prompt (fun _ => false) "." "p" 4 "openai" "gpt-image-1.5"
      (some "low") none adapterEx [1, 2, 3, 4]).failed = 1 := by decide
  have hcost : (generate_from_prompt (fun _ => false) "." "p" 4 "openai" "gpt-image-1.5"
      (some "low") none adapterEx [1, 2, 3, 4]).actualCost
      = calculate_image_cost (some "openai") (some "low") none * 3 := by
    rw [hgen, hsucc]
    norm_num
  refine ⟨hgen, hsucc, hfail, hcost, ?_⟩
  rw [hcost]
  have hcol : (generate_from_prompt (fun _ => false) "." "p" 4 "openai" "gpt-image-1.5"
      (some "low") none adapterEx [1, 2, 3, 4]).collected
      = [(1, generate_single_image (adapterEx 1)), (2, generate_single_image (adapterEx 2)),
         (3, generate_single_image (adapterEx 3)), (4, generate_single_image (adapterEx 4))] := by
    decide
  rw [hcol]
  simp [adapterEx, generate_single_image, calculate_image_cost, get_image_cost,
    orDefault, dictGet, OPENAI_PRICING, DEFAULT_PROVIDER, DEFAULT_QUALITY, List.lookup]
  norm_num

/-- C9: an exception raised by the adapter call makes `generate_single_image`
return a plain failure carrying the stringified exception and no rate-limit
flag; an exception therefore never aborts the batch and never triggers the
rate-limit short-circuit — only an adapter-returned result with
`rate_limited = true` can. -/
theorem exception_is_plain_failure :
    (∀ e : String, generate_single_image (Except.error e)
        = { status := "failed", error := some e })
    ∧ (∀ e : String, (generate_single_image (Except.error e)).rate_limited = false)
    ∧ (∀ (d : String → Bool) (od p : String) (n : Nat) (pn pm : String)
        (q r : Option String) (adapter : Nat → Except String SlotResult)
        (order : List Nat),
        (generate_from_prompt d od p n pn pm q r adapter order).rateLimited = true →
          ∃ i res, i ∈ order ∧ adapter i = Except.ok res ∧ res.rate_limited = true)
    ∧ (∀ (d : String → Bool) (od p : String) (n : Nat) (pn pm : String)
        (q r : Option String) (adapter : Nat → Except String SlotResult)
        (order : List Nat),
        (check_file_collisions d n).1 = false →
          (generate_from_prompt d od p n pn pm q r adapter order).raised = none) := by
  refine ⟨fun e => rfl, fun e => rfl, ?_, ?_⟩
  · intro d od p n pn pm q r adapter order hrl
    by_cases hc : (check_file_collisions d n).1
    · simp [generate_from_prompt, hc] at hrl
    · simp only [generate_from_prompt, hc, if_false, Bool.false_eq_true] at hrl
      rw [List.any_eq_true] at hrl
      rcases hrl with ⟨⟨i, res⟩, hmem, hrli⟩
      rcases mem_collectResults adapter order i res hmem with ⟨hio, hres⟩
      cases hadap : adapter i with
      | error e =>
        rw [hres, hadap] at hrli
        simp [generate_single_image] at hrli
      | ok res' =>
        refine ⟨i, res', hio, hadap, ?_⟩
        rw [hres, hadap] at hrli
        simpa [generate_single_image] using hrli
  · intro d od p n pn pm q r adapter order hc
    simp [generate_from_prompt, hc]

/-- C9 witness: with an adapter whose slot 1 raises and slot 2 returns a
rate-limited failure result, the short-circuit trigger is the returned
result, and the raising slot is recorded as a plain failure. -/
theorem exception_is_plain_failure_w :
    generate_single_image (Except.error "boom")
        = { status := "failed", error := some "boom" }
    ∧ (generate_single_image (Except.error "boom")).rate_limited = false
    ∧ (∃ i res, i ∈ [1, 2] ∧ adapterRL i = Except.ok res ∧ res.rate_limited = true)
    ∧ (generate_from_prompt (fun _ => false) "." "p" 2 "openai" "m" none none
        (fun _ => Except.error "boom") [1, 2]).raised = none :=
  ⟨exception_is_plain_failure.1 "boom",
   exception_is_plain_failure.2.1 "boom",
   exception_is_plain_failure.2.2.1 (fun _ => false) "." "p" 2 "openai" "m" none none
     adapterRL [1, 2] (by decide),
   exception_is_plain_failure.2.2.2 (fun _ => false) "." "p" 2 "openai" "m" none none
     (fun _ => Except.error "boom") [1, 2] (by decide)⟩

/-- C4: finalization iterates slots 1..variations in ascending order and, for
each slot with a collected result, emits its success/failure line and (on
success) the metadata write, in that slot order; the emitted report is a
function of the mapping of collected results alone, independent of the
completion order that produced it. -/
theorem ordered_finalization (d : String → Bool) (od p : String) (n : Nat)
    (pn pm : String) (q r : Option String)
    (adapter : Nat → Except String SlotResult) (order : List Nat)
    (hcol : (check_file_collisions d n).1 = false) :
    (generate_from_prompt d od p n pn pm q r adapter order).lines
        = (target_slots n).filterMap
            (lineFor (generate_from_prompt d od p n pn pm q r adapter order).collected)
    ∧ (generate_from_prompt d od p n pn pm q r adapter order).metadataWrites
        = (target_slots n).filterMap
            (writeFor p pn pm (generate_from_prompt d od p n pn pm q r adapter order).collected)
    ∧ (generate_from_prompt d od p n pn pm q r adapter order).lines.map ReportLine.slot
        = (target_slots n).filter (fun i =>
            (resultFor (generate_from_prompt d od p n pn pm q r adapter order).collected i).isSome)
    ∧ List.Pairwise (fun a b => a < b)
        ((generate_from_prompt d od p n pn pm q r adapter order).lines.map ReportLine.slot)
    ∧ (∀ c' : List (Nat × SlotResult),
        (∀ i, resultFor c' i
            = resultFor (generate_from_prompt d od p n pn pm q r adapter order).collected i) →
        finalize n p pn pm c'
          = finalize n p pn pm (generate_from_prompt d od p n pn pm q r adapter order).collected) := by
  have hc : (generate_from_prompt d od p n pn pm q r adapter order).collected
      = collectResults adapter order := by
    simp [generate_from_prompt, hcol]
  have hl : (generate_from_prompt d od p n pn pm q r adapter order).lines
      = (finalize n p pn pm (collectResults adapter order)).lines := by
    simp [generate_from_prompt, hcol]
  have hw : (generate_from_prompt d od p n pn pm q r adapter order).metadataWrites
      = (finalize n p pn pm (collectResults adapter order)).metadataWrites := by
    simp [generate_from_prompt, hcol]
  have h1 : (generate_from_prompt d od p n pn pm q r adapter order).lines
      = (target_slots n).filterMap (lineFor (collectResults adapter order)) := by
    rw [hl, finalize, finalizeSlots_lines]
  have h3 : (generate_from_prompt d od p n pn pm q r adapter order).lines.map ReportLine.slot
      = (target_slots n).filter (fun i =>
          (resultFor (collectResults adapter order) i).isSome) := by
    rw [h1, List.map_filterMap]
    rw [show (fun i => Option.map ReportLine.slot (lineFor (collectResults adapter order) i))
        = (fun i => if (resultFor (collectResults adapter order) i).isSome
            then some i else none) from funext (lineFor_map_slot _)]
    exact filterMap_if_eq_filter _ _
  refine ⟨by rw [h1, hc], ?_, by rw [h3, hc], ?_, ?_⟩
  · rw [hw, hc, finalize, finalizeSlots_writes]
  · rw [h3]
    exact List.Pairwise.sublist (List.filter_sublist _) (List.pairwise_lt_range' 1 n)
  · intro c' hsame
    rw [hc] at hsame ⊢
    rw [finalize, finalize, finalizeSlots_resultFor_congr p pn pm _ c' _ hsame]

/-- C4 witness: a two-slot batch whose results completed out of order
(slot 2 first) is still reported in ascending slot order. -/
theorem ordered_finalization_w :
    (generate_from_prompt (fun _ => false) "." "p" 2 "openai" "m" none none
        adapterEx [2, 1]).lines.map ReportLine.slot
      = (target_slots 2).filter (fun i =>
          (resultFor (generate_from_prompt (fun _ => false) "." "p" 2 "openai" "m"
              none none adapterEx [2, 1]).collected i).isSome)
    ∧ (generate_from_prompt (fun _ => false) "." "p" 2 "openai" "m" none none
        adapterEx [2, 1]).lines.map ReportLine.slot = [1, 2] :=
  ⟨(ordered_finalization (fun _ => false) "." "p" 2 "openai" "m" none none
      adapterEx [2, 1] (by decide)).2.2.1,
   by decide⟩

/-- C2: once the first collected result with `rate_limited = true` is
observed, the batch short-circuits for good: the collected results are
exactly those completed up to and including the trigger, the batch is marked
rate-limited, the success and failure counts cover exactly the collected
slots, and every other slot has no result (counting as neither success nor
failure). -/
theorem rate_limit_short_circuit (d : String → Bool) (od p : String) (n : Nat)
    (pn pm : String) (q r : Option String)
    (adapter : Nat → Except String SlotResult)
    (pre post : List Nat) (j : Nat)
    (hcol : (check_file_collisions d n).1 = false)
    (hnodup : (pre ++ j :: post).Nodup)
    (hsub : ∀ i ∈ pre ++ j :: post, i ∈ target_slots n)
    (hpre : ∀ i ∈ pre, (generate_single_image (adapter i)).rate_limited = false)
    (hj : (generate_single_image (adapter j)).rate_limited = true) :
    (generate_from_prompt d od p n pn pm q r adapter (pre ++ j :: post)).collected
        = (pre ++ [j]).map (fun i => (i, generate_single_image (adapter i)))
    ∧ (generate_from_prompt d od p n pn pm q r adapter (pre ++ j :: post)).rateLimited = true
    ∧ (generate_from_prompt d od p n pn pm q r adapter (pre ++ j :: post)).successful
        + (generate_from_prompt d od p n pn pm q r adapter (pre ++ j :: post)).failed
        = pre.length + 1
    ∧ (∀ i, i ∉ pre → i ≠ j →
        resultFor (generate_from_prompt d od p n pn pm q r adapter (pre ++ j :: post)).collected i
          = none) := by
  have hstop : collectResults adapter (pre ++ j :: post)
      = (pre ++ [j]).map (fun i => (i, generate_single_image (adapter i))) := by
    rw [collectResults_stops adapter pre j post hpre hj]
    simp
  have hc : (generate_from_prompt d od p n pn pm q r adapter (pre ++ j :: post)).collected
      = (pre ++ [j]).map (fun i => (i, generate_single_image (adapter i))) := by
    simp only [generate_from_prompt, hcol, Bool.false_eq_true, if_false]
    exact hstop
  have hlook : ∀ i : Nat,
      resultFor ((pre ++ [j]).map (fun i => (i, generate_single_image (adapter i)))) i
        = if i ∈ pre ++ [j] then some (generate_single_image (adapter i)) else none :=
    fun i => lookup_map_pair _ _ i
  have hSnodup : (pre ++ [j]).Nodup := by
    have hsl : (pre ++ [j]).Sublist (pre ++ j :: post) :=
      List.Sublist.append_left (List.cons_sublist_cons.mpr (List.nil_sublist post)) pre
    exact hsl.nodup hnodup
  have hSsub : ∀ i ∈ pre ++ [j], i ∈ target_slots n := by
    intro i hi
    apply hsub
    rcases List.mem_append.mp hi with h | h
    · exact List.mem_append.mpr (Or.inl h)
    · simp only [List.mem_singleton] at h
      exact List.mem_append.mpr (Or.inr (by simp [h]))
  refine ⟨hc, ?_, ?_, ?_⟩
  · simp only [generate_from_prompt, hcol, Bool.false_eq_true, if_false, hstop]
    rw [List.any_eq_true]
    refine ⟨(j, generate_single_image (adapter j)), ?_, hj⟩
    exact List.mem_map.mpr ⟨j, by simp, rfl⟩
  · have hsf : (generate_from_prompt d od p n pn pm q r adapter (pre ++ j :: post)).successful
        = (finalize n p pn pm (collectResults adapter (pre ++ j :: post))).successful := by
      simp [generate_from_prompt, hcol]
    have hff : (generate_from_prompt d od p n pn pm q r adapter (pre ++ j :: post)).failed
        = (finalize n p pn pm (collectResults adapter (pre ++ j :: post))).failed := by
      simp [generate_from_prompt, hcol]
    rw [hsf, hff, finalize, counts_add, hstop]
    have hfe : (target_slots n).filter (fun i =>
          (resultFor ((pre ++ [j]).map (fun i => (i, generate_single_image (adapter i)))) i).isSome)
        = (target_slots n).filter (fun i => decide (i ∈ pre ++ [j])) := by
      apply List.filter_congr
      intro x _
      rw [hlook x]
      by_cases hx : x ∈ pre ++ [j] <;> simp [hx]
    have hT : (target_slots n).Nodup := by
      rw [target_slots]
      exact List.nodup_range' 1 n
    rw [hfe, length_filter_mem _ _ hT hSnodup hSsub]
    simp
  · intro i hip hij
    rw [hc, hlook i]
    have : i ∉ pre ++ [j] := by
      simp only [List.mem_append, List.mem_singleton]
      rintro (h | h)
      · exact hip h
      · exact hij h
    simp [this]

/-- C2 witness: a four-slot batch whose completion order is 1, 2, 3, 4 with
slot 2 rate-limited: only slots 1 and 2 are collected, the counts cover
exactly those two slots, and slots 3 and 4 have no result. -/
theorem rate_limit_short_circuit_w :
    (generate_from_prompt (fun _ => false) "." "p" 4 "openai" "m" none none
        (fun i => if i = 2
          then Except.ok { status := "failed", error := some "rate limit", rate_limited := true }
          else Except.ok { status := "success" }) ([1] ++ 2 :: [3, 4])).successful
      + (generate_from_prompt (fun _ => false) "." "p" 4 "openai" "m" none none
        (fun i => if i = 2
          then Except.ok { status := "failed", error := some "rate limit", rate_limited := true }
          else Except.ok { status := "success" }) ([1] ++ 2 :: [3, 4])).failed
      = [1].length + 1
    ∧ (generate_from_prompt (fun _ => false) "." "p" 4 "openai" "m" none none
        (fun i => if i = 2
          then Except.ok { status := "failed", error := some "rate limit", rate_limited := true }
          else Except.ok { status := "success" }) ([1] ++ 2 :: [3, 4])).rateLimited = true
    ∧ resultFor (generate_from_prompt (fun _ => false) "." "p" 4 "openai" "m" none none
        (fun i => if i = 2
          then Except.ok { status := "failed", error := some "rate limit", rate_limited := true }
          else Except.ok { status := "success" }) ([1] ++ 2 :: [3, 4])).collected 3 = none :=
  ⟨(rate_limit_short_circuit (fun _ => false) "." "p" 4 "openai" "m" none none
      (fun i => if i = 2
        then Except.ok { status := "failed", error := some "rate limit", rate_limited := true }
        else Except.ok { status := "success" }) [1] [3, 4] 2
      (by decide) (by decide) (by decide) (by decide) (by decide)).2.2.1,
   (rate_limit_short_circuit (fun _ => false) "." "p" 4 "openai" "m" none none
      (fun i => if i = 2
        then Except.ok { status := "failed", error := some "rate limit", rate_limited := true }
        else Except.ok { status := "success" }) [1] [3, 4] 2
      (by decide) (by decide) (by decide) (by decide) (by decide)).2.1,
   (rate_limit_short_circuit (fun _ => false) "." "p" 4 "openai" "m" none none
      (fun i => if i = 2
        then Except.ok { status := "failed", error := some "rate limit", rate_limited := true }
        else Except.ok { status := "success" }) [1] [3, 4] 2
      (by decide) (by decide) (by decide) (by decide) (by decide)).2.2.2 3
      (by decide) (by decide)⟩

/-- C8: the persisted metadata record always contains the three required
fields; each named optional field is present iff its value is present
(`revised_prompt` additionally only when it differs from the original prompt,
in which case it is included verbatim); each provider-specific extra field is
present iff its value is non-null; and no other keys occur.  Present-but-falsy
values (empty string, 0.0) are covered by the iffs since they are `some`
values. -/
theorem metadata_record_fields (op pv md : String)
    (rp cr ql sz : Option String) (cu : Option ℚ)
    (kwargs : List (String × Option JVal))
    (hk : (kwargs.map Prod.fst).Nodup)
    (hd : ∀ kk ∈ kwargs.map Prod.fst, kk ∉ reservedKeys) :
    ("original_prompt", JVal.s op) ∈ save_metadata_file op pv md rp cr ql sz cu kwargs
    ∧ ("provider", JVal.s pv) ∈ save_metadata_file op pv md rp cr ql sz cu kwargs
    ∧ ("model", JVal.s md) ∈ save_metadata_file op pv md rp cr ql sz cu kwargs
    ∧ ("revised_prompt" ∈ keysOf (save_metadata_file op pv md rp cr ql sz cu kwargs)
        ↔ ∃ s, rp = some s ∧ s ≠ op)
    ∧ (∀ s, rp = some s → s ≠ op →
        ("revised_prompt", JVal.s s) ∈ save_metadata_file op pv md rp cr ql sz cu kwargs)
    ∧ ("created" ∈ keysOf (save_metadata_file op pv md rp cr ql sz cu kwargs)
        ↔ cr.isSome = true)
    ∧ ("quality" ∈ keysOf (save_metadata_file op pv md rp cr ql sz cu kwargs)
        ↔ ql.isSome = true)
    ∧ ("size" ∈ keysOf (save_metadata_file op pv md rp cr ql sz cu kwargs)
        ↔ sz.isSome = true)
    ∧ ("cost_usd" ∈ keysOf (save_metadata_file op pv md rp cr ql sz cu kwargs)
        ↔ cu.isSome = true)
    ∧ (∀ (kk : String) (v : JVal), (kk, some v) ∈ kwargs →
        (kk, v) ∈ save_metadata_file op pv md rp cr ql sz cu kwargs)
    ∧ (∀ kk : String, (kk, none) ∈ kwargs →
        kk ∉ keysOf (save_metadata_file op pv md rp cr ql sz cu kwargs))
    ∧ (∀ kk ∈ keysOf (save_metadata_file op pv md rp cr ql sz cu kwargs),
        kk ∈ reservedKeys ∨ kk ∈ kwargs.map Prod.fst) := by
  have hres : ∀ kk, kk ∈ reservedKeys → ¬ ∃ v, (kk, some v) ∈ kwargs := by
    rintro kk hr ⟨v, hv⟩
    exact hd kk (List.mem_map.mpr ⟨(kk, some v), hv, rfl⟩) hr
  refine ⟨?_, ?_, ?_, ?_, ?_, ?_, ?_, ?_, ?_, ?_, ?_, ?_⟩
  · unfold save_metadata_file
    simp
  · unfold save_metadata_file
    simp
  · unfold save_metadata_file
    simp
  · rw [mem_keysOf_save_iff]
    simp [hres "revised_prompt" (by decide)]
  · intro s hsome hneq
    subst hsome
    unfold save_metadata_file
    simp [hneq]
  · rw [mem_keysOf_save_iff]
    simp [hres "created" (by decide)]
  · rw [mem_keysOf_save_iff]
    simp [hres "quality" (by decide)]
  · rw [mem_keysOf_save_iff]
    simp [hres "size" (by decide)]
  · rw [mem_keysOf_save_iff]
    simp [hres "cost_usd" (by decide)]
  · intro kk v hkv
    unfold save_metadata_file
    exact List.mem_append.mpr (Or.inr (List.mem_filterMap.mpr ⟨(kk, some v), hkv, rfl⟩))
  · intro kk hnone hmem
    have hkkm : kk ∈ kwargs.map Prod.fst := List.mem_map.mpr ⟨(kk, none), hnone, rfl⟩
    have hnr : kk ∉ reservedKeys := hd kk hkkm
    rw [mem_keysOf_save_iff] at hmem
    rcases hmem with h | h | h | ⟨h, _⟩ | ⟨h, _⟩ | ⟨h, _⟩ | ⟨h, _⟩ | ⟨h, _⟩ | ⟨v, hv⟩
    · exact hnr (by rw [h]; decide)
    · exact hnr (by rw [h]; decide)
    · exact hnr (by rw [h]; decide)
    · exact hnr (by rw [h]; decide)
    · exact hnr (by rw [h]; decide)
    · exact hnr (by rw [h]; decide)
    · exact hnr (by rw [h]; decide)
    · exact hnr (by rw [h]; decide)
    · have := snd_eq_of_nodup_keys hk hnone hv
      simp at this
  · intro kk hmem
    rw [mem_keysOf_save_iff] at hmem
    rcases hmem with h | h | h | ⟨h, _⟩ | ⟨h, _⟩ | ⟨h, _⟩ | ⟨h, _⟩ | ⟨h, _⟩ | ⟨v, hv⟩
    · exact Or.inl (by rw [h]; decide)
    · exact Or.inl (by rw [h]; decide)
    · exact Or.inl (by rw [h]; decide)
    · exact Or.inl (by rw [h]; decide)
    · exact Or.inl (by rw [h]; decide)
    · exact Or.inl (by rw [h]; decide)
    · exact Or.inl (by rw [h]; decide)
    · exact Or.inl (by rw [h]; decide)
    · exact Or.inr (List.mem_map.mpr ⟨(kk, some v), hv, rfl⟩)

/-- C8 witness: a record with an identical revised prompt, empty-string and
zero-valued optional fields, one non-null and one null extra field. -/
theorem metadata_record_fields_w :
    ("revised_prompt"
        ∈ keysOf (save_metadata_file "p" "openai" "m" (some "p") (some "") none none
            (some 0) [("model_version", some (JVal.s "v1")), ("response_id", none)])
      ↔ ∃ s, (some "p" : Option String) = some s ∧ s ≠ "p")
    ∧ ("created"
        ∈ keysOf (save_metadata_file "p" "openai" "m" (some "p") (some "") none none
            (some 0) [("model_version", some (JVal.s "v1")), ("response_id", none)])
      ↔ (some "" : Option String).isSome = true)
    ∧ ("cost_usd"
        ∈ keysOf (save_metadata_file "p" "openai" "m" (some "p") (some "") none none
            (some 0) [("model_version", some (JVal.s "v1")), ("response_id", none)])
      ↔ (some (0 : ℚ) : Option ℚ).isSome = true)
    ∧ ("model_version", JVal.s "v1")
        ∈ save_metadata_file "p" "openai" "m" (some "p") (some "") none none
            (some 0) [("model_version", some (JVal.s "v1")), ("response_id", none)]
    ∧ "response_id"
        ∉ keysOf (save_metadata_file "p" "openai" "m" (some "p") (some "") none none
            (some 0) [("model_version", some (JVal.s "v1")), ("response_id", none)]) :=
  ⟨(metadata_record_fields "p" "openai" "m" (some "p") (some "") none none (some 0)
      [("model_version", some (JVal.s "v1")), ("response_id", none)]
      (by decide) (by decide)).2.2.2.1,
   (metadata_record_fields "p" "openai" "m" (some "p") (some "") none none (some 0)
      [("model_version", some (JVal.s "v1")), ("response_id", none)]
      (by decide) (by decide)).2.2.2.2.2.1,
   (metadata_record_fields "p" "openai" "m" (some "p") (some "") none none (some 0)
      [("model_version", some (JVal.s "v1")), ("response_id", none)]
      (by decide) (by decide)).2.2.2.2.2.2.2.2.1,
   (metadata_record_fields "p" "openai" "m" (some "p") (some "") none none (some 0)
      [("model_version", some (JVal.s "v1")), ("response_id", none)]
      (by decide) (by decide)).2.2.2.2.2.2.2.2.2.1 "model_version" (JVal.s "v1")
      (by decide),
   (metadata_record_fields "p" "openai" "m" (some "p") (some "") none none (some 0)
      [("model_version", some (JVal.s "v1")), ("response_id", none)]
      (by decide) (by decide)).2.2.2.2.2.2.2.2.2.2.1 "response_id" (by decide)⟩

end Imggen
